import Mathlib

/-!
A shallow embedding of the PingPongBotEth core (src/index.ts): the
deduplicating event queue, the filesystem-backed state manager, the
dispatcher drain tick with its escalation policy, the pong-sending
routine, and the reconciliation pass, together with theorems settling
the specification claims about them.

External collaborators are modelled as explicit inputs: the result of
the pong call (submission, confirmation wait and receipt status) is a
PongOutcome argument, and the list of events returned by a historical
range query is a separate argument. Block numbers are JS numbers used
as integers, modelled as Int. A JS object keyed by transaction hash is
modelled as an association list with replace-on-existing-key insertion.
-/

namespace PingPongBot

/-- Name of the primary queue (source line 6). -/
def COMMON_PING_EVENT_QUEUE : String := "Common_Ping_Event_Queue"

/-- Name of the escalated queue (source line 7). -/
def FORCE_PING_EVENT_QUEUE : String := "Force_Ping_Event_Queue"

/-- An ethers EventLog as consumed by the bot: only the transaction hash
of the originating Ping and its block number are used. -/
structure EventLog where
  transactionHash : String
  blockNumber : Int
deriving DecidableEq

/-- In-memory deduplicating queue (class Queue of the source), with its
name, FIFO contents, gas-tier multiplier and drain lock. -/
structure Queue where
  queueName : String
  queue : List EventLog
  gasModifier : Int
  lock : Bool
deriving DecidableEq

/-- Queue.push (source lines 75-82): append at the tail unless an item
with the same transactionHash is already present, in which case the
queue is left unchanged and a warning is logged. -/
def Queue.push (q : Queue) (event : EventLog) : Queue :=
  if q.queue.any fun e => e.transactionHash == event.transactionHash then q
  else { q with queue := q.queue ++ [event] }

/-- Queue.shift (source lines 84-86): remove and return the head. -/
def Queue.shift (q : Queue) : Option EventLog × Queue :=
  match q.queue with
  | [] => (none, q)
  | e :: rest => (some e, { q with queue := rest })

/-- Persisted bot state (interface State, source lines 98-102). The JS
objects keyed by txHash are association lists. -/
structure State where
  lastBlock : Int
  sentTransactions : List (String × Int)
  failedTransactions : List (String × Int)
deriving DecidableEq

/-- JS object assignment obj[k] = v on a map keyed by strings: replace
the binding when the key is present, otherwise add it at the end. -/
def upsert (k : String) (v : Int) : List (String × Int) → List (String × Int)
  | [] => [(k, v)]
  | (k', v') :: rest => if k' == k then (k, v) :: rest else (k', v') :: upsert k v rest

/-- BotStateManagerFS.getLastBlock (source lines 138-140). -/
def getLastBlock (s : State) : Int := s.lastBlock

/-- BotStateManagerFS.setLastBlock (source lines 165-168): assigns the
new value and persists; the source performs no validation. -/
def setLastBlock (s : State) (blockNumber : Int) : State :=
  { s with lastBlock := blockNumber }

/-- BotStateManagerFS.addSentTransaction (source lines 142-147). -/
def addSentTransaction (s : State) (pingTxHash : String) (blockNumber : Int) : State :=
  { s with sentTransactions := upsert pingTxHash blockNumber s.sentTransactions }

/-- BotStateManagerFS.addFailedTransaction (source lines 149-154). -/
def addFailedTransaction (s : State) (pingTxHash : String) (blockNumber : Int) : State :=
  { s with failedTransactions := upsert pingTxHash blockNumber s.failedTransactions }

/-- BotStateManagerFS.clearTransactionsBeforeBlock (source lines
156-163): delete every sent entry whose blockNumber is below the given
block; failed entries are not touched. -/
def clearTransactionsBeforeBlock (s : State) (blockNumber : Int) : State :=
  { s with sentTransactions :=
      s.sentTransactions.filter fun p => ! decide (p.2 < blockNumber) }

/-- BotStateManagerFS constructor (source lines 122-136): start from the
configured floor; when durable storage exists, adopt its lastBlock only
if it is at least the floor, and load the two transaction maps. -/
def BotStateManagerFS.construct (configLastBlock : Int) (stored : Option State) : State :=
  match stored with
  | none =>
    { lastBlock := configLastBlock, sentTransactions := [], failedTransactions := [] }
  | some data =>
    { lastBlock := if data.lastBlock ≥ configLastBlock then data.lastBlock else configLastBlock
      sentTransactions := data.sentTransactions
      failedTransactions := data.failedTransactions }

/-- The bot with its two queues and state store (class Bot). The
provider, wallet and contract are external and carry no bot state. -/
structure Bot where
  eventQueue : Queue
  forceEventQueue : Queue
  defaultGasLimit : Int
  state : State
deriving DecidableEq

/-- Selector for the two queue fields of the bot, standing for the queue
object passed to queueHandle by the two dispatch intervals. -/
inductive QueueId
  | common
  | force
deriving DecidableEq

/-- Read the selected queue field. -/
def Bot.getQueue (b : Bot) : QueueId → Queue
  | .common => b.eventQueue
  | .force => b.forceEventQueue

/-- Write the selected queue field. -/
def Bot.setQueue (b : Bot) : QueueId → Queue → Bot
  | .common, q => { b with eventQueue := q }
  | .force, q => { b with forceEventQueue := q }

/-- Outcome of the external pong transaction for one attempt: either the
submission or the confirmation wait throws, or a receipt with the given
status is obtained. -/
inductive PongOutcome
  | callError
  | receipt (status : Int)
deriving DecidableEq

/-- Whether sendPong throws for the given external outcome: it does
unless a receipt with status 1 is obtained. -/
def sendPongFails : PongOutcome → Bool
  | .callError => true
  | .receipt status => status != 1

/-- Bot.sendPong (source lines 270-287): on a receipt with status 1 the
transaction is recorded via addSentTransaction and the call returns; on
a thrown submission or wait, or a receipt with any other status, the
error is rethrown and no state mutation happens. The gas limit is
forwarded to the external call and has no further effect here. -/
def sendPong (event : EventLog) (gasLimit : Int) (outcome : PongOutcome) (s : State) :
    Except String State :=
  match gasLimit, outcome with
  | _, .callError => .error "call failed"
  | _, .receipt status =>
    if status == 1 then
      .ok (addSentTransaction s event.transactionHash event.blockNumber)
    else .error "Transaction failed"

/-- Bot.handleErrorPong (source lines 257-267): a failure from the queue
named COMMON_PING_EVENT_QUEUE pushes the event into the force queue; a
failure from any other queue records it as a failed transaction. -/
def handleErrorPong (b : Bot) (event : EventLog) (queueName : String) : Bot :=
  if queueName == COMMON_PING_EVENT_QUEUE then
    { b with forceEventQueue := b.forceEventQueue.push event }
  else
    { b with state := addFailedTransaction b.state event.transactionHash event.blockNumber }

/-- Bot.queueHandle (source lines 235-255): skip when the lock is held;
otherwise take the lock, shift one event (releasing the lock when the
queue is empty), attempt sendPong with the tier-scaled gas limit, route
a failure through handleErrorPong, and finally release the lock. -/
def queueHandle (b : Bot) (qid : QueueId) (outcome : PongOutcome) : Bot :=
  let q := b.getQueue qid
  if q.lock then b
  else
    match q.queue with
    | [] => b.setQueue qid { q with lock := false }
    | event :: rest =>
      let b1 := b.setQueue qid { q with queue := rest, lock := true }
      let b2 :=
        match sendPong event (b.defaultGasLimit * q.gasModifier) outcome b1.state with
        | .ok s1 => { b1 with state := s1 }
        | .error _ => handleErrorPong b1 event q.queueName
      let q2 := b2.getQueue qid
      b2.setQueue qid { q2 with lock := false }

/-- Body of the reconciliation loop (source lines 294-302): a found
event is pushed into the primary queue unless its hash is already in
the sent map. -/
def reconcileStep (acc : Bot) (event : EventLog) : Bot :=
  if (acc.state.sentTransactions.lookup event.transactionHash).isNone then
    { acc with eventQueue := acc.eventQueue.push event }
  else acc

/-- Bot.catchMissedEventsFromTo (source lines 289-307): when the end
block is beyond the start block, query the range and enqueue every
returned event not already sent; then, unconditionally, set the last
block to the end block and clear sent entries below it. The list of
events returned by the external range query is passed in. -/
def catchMissedEventsFromTo (b : Bot) (startBlockNumber endBlockNumber : Int)
    (events : List EventLog) : Bot :=
  let b1 :=
    if endBlockNumber > startBlockNumber then events.foldl reconcileStep b
    else b
  { b1 with state :=
      clearTransactionsBeforeBlock (setLastBlock b1.state endBlockNumber) endBlockNumber }

/-- The queue wiring of the main program (source lines 328-333): the
primary queue carries the common name, the escalated queue the force
name. -/
def wiredNames (b : Bot) : Prop :=
  b.eventQueue.queueName = COMMON_PING_EVENT_QUEUE ∧
  b.forceEventQueue.queueName = FORCE_PING_EVENT_QUEUE

instance (b : Bot) : Decidable (wiredNames b) := by
  unfold wiredNames
  infer_instance

/-- A fresh queue as built by the main program: empty, unlocked. -/
def mkQueue (name : String) (gasModifier : Int) : Queue :=
  { queueName := name, queue := [], gasModifier := gasModifier, lock := false }

/-- A bot wired as in the main program (source lines 328-333), with both
queues fresh and the given state. -/
def demoBot (s : State) : Bot :=
  { eventQueue := mkQueue COMMON_PING_EVENT_QUEUE 1
    forceEventQueue := mkQueue FORCE_PING_EVENT_QUEUE 2
    defaultGasLimit := 50000
    state := s }

/-- A sample Ping event used by concrete instances. -/
def pingEvent : EventLog := ⟨"0xping", 5⟩

/-- A program-wired bot whose primary queue holds one event and is
unlocked. -/
def busyBot : Bot :=
  { eventQueue :=
      { queueName := COMMON_PING_EVENT_QUEUE, queue := [⟨"0xa", 1⟩]
        gasModifier := 1, lock := false }
    forceEventQueue := mkQueue FORCE_PING_EVENT_QUEUE 2
    defaultGasLimit := 50000
    state := ⟨0, [], []⟩ }

/-- A program-wired bot whose primary queue holds one event but is
locked by an in-flight drain. -/
def lockedBot : Bot :=
  { eventQueue :=
      { queueName := COMMON_PING_EVENT_QUEUE, queue := [⟨"0xa", 1⟩]
        gasModifier := 1, lock := true }
    forceEventQueue := mkQueue FORCE_PING_EVENT_QUEUE 2
    defaultGasLimit := 50000
    state := ⟨0, [], []⟩ }

/-- A program-wired bot holding pingEvent in the primary queue, both
queues unlocked, with empty state maps. -/
def C4bot0 : Bot :=
  { eventQueue :=
      { queueName := COMMON_PING_EVENT_QUEUE, queue := [pingEvent]
        gasModifier := 1, lock := false }
    forceEventQueue := mkQueue FORCE_PING_EVENT_QUEUE 2
    defaultGasLimit := 50000
    state := ⟨0, [], []⟩ }

theorem lookup_upsert_self (k : String) (v : Int) (l : List (String × Int)) :
    (upsert k v l).lookup k = some v := by
  induction l with
  | nil => simp [upsert, List.lookup]
  | cons p rest ih =>
    obtain ⟨k1, v1⟩ := p
    by_cases h : k1 = k
    · subst h
      simp [upsert, List.lookup]
    · have h1 : (k1 == k) = false := beq_eq_false_iff_ne.mpr h
      have h2 : (k == k1) = false := beq_eq_false_iff_ne.mpr (Ne.symm h)
      simp [upsert, List.lookup, h1, h2, ih]

theorem reconcileStep_state (b : Bot) (e : EventLog) :
    (reconcileStep b e).state = b.state := by
  unfold reconcileStep
  split <;> rfl

theorem reconcileStep_force (b : Bot) (e : EventLog) :
    (reconcileStep b e).forceEventQueue = b.forceEventQueue := by
  unfold reconcileStep
  split <;> rfl

theorem foldl_reconcileStep_state (events : List EventLog) (b : Bot) :
    (events.foldl reconcileStep b).state = b.state := by
  induction events generalizing b with
  | nil => rfl
  | cons e rest ih => rw [List.foldl_cons, ih, reconcileStep_state]

theorem foldl_reconcileStep_force (events : List EventLog) (b : Bot) :
    (events.foldl reconcileStep b).forceEventQueue = b.forceEventQueue := by
  induction events generalizing b with
  | nil => rfl
  | cons e rest ih => rw [List.foldl_cons, ih, reconcileStep_force]

theorem catchMissed_state (b : Bot) (s e : Int) (events : List EventLog) :
    (catchMissedEventsFromTo b s e events).state =
      clearTransactionsBeforeBlock (setLastBlock b.state e) e := by
  by_cases h : e > s <;>
    simp [catchMissedEventsFromTo, h, foldl_reconcileStep_state]

/-- Claim C1, counterexample: the claim asserts getLastBlock never
decreases across a reconcile call even when toBlock is below the current
watermark, but catchMissedEventsFromTo stores toBlock unconditionally;
with lastBlock 10, the call with range (0, 5) lowers it to 5. -/
theorem C1_counterexample :
    (catchMissedEventsFromTo (demoBot ⟨10, [], []⟩) 0 5 []).state.lastBlock <
      (demoBot ⟨10, [], []⟩).state.lastBlock := by
  decide

/-- Claim C1, amended: after catchMissedEventsFromTo(from, to) the stored
lastBlock equals to, so the watermark is non-decreasing across a call
exactly when the call's toBlock is at least the current lastBlock; a call
with a smaller toBlock rewinds it. -/
theorem C1_amended_monotone (b : Bot) (s e : Int) (events : List EventLog)
    (h : b.state.lastBlock ≤ e) :
    (catchMissedEventsFromTo b s e events).state.lastBlock = e ∧
    b.state.lastBlock ≤ (catchMissedEventsFromTo b s e events).state.lastBlock := by
  have hs := catchMissed_state b s e events
  constructor
  · rw [hs]
    rfl
  · rw [hs]
    exact h

/-- Witness for C1 at a concrete call whose toBlock 12 is at least the
current watermark 10. -/
theorem C1_witness :
    (catchMissedEventsFromTo (demoBot ⟨10, [], []⟩) 0 12 []).state.lastBlock = 12 ∧
    (demoBot ⟨10, [], []⟩).state.lastBlock ≤
      (catchMissedEventsFromTo (demoBot ⟨10, [], []⟩) 0 12 []).state.lastBlock :=
  C1_amended_monotone (demoBot ⟨10, [], []⟩) 0 12 [] (by decide)

/-- Claim C2, counterexample: the claim asserts setLastBlock(n) fails and
leaves the state unchanged when n is below the current last block, but
the source assigns the new value with no validation: from lastBlock 10,
setLastBlock 5 changes the persisted state. -/
theorem C2_counterexample :
    (5:Int) < getLastBlock (⟨10, [], []⟩ : State) ∧
    setLastBlock (⟨10, [], []⟩ : State) 5 ≠ (⟨10, [], []⟩ : State) := by
  decide

/-- Claim C2, amended: setLastBlock(n) never fails; it always overwrites
lastBlock with n (even when n is smaller) and persists synchronously,
leaving the sent and failed maps unchanged. -/
theorem C2_amended (s : State) (n : Int) :
    setLastBlock s n =
      { lastBlock := n
        sentTransactions := s.sentTransactions
        failedTransactions := s.failedTransactions } := rfl

/-- Claim C3, counterexample: the claim asserts a reconcile call with
toBlock at most fromBlock leaves the StateStore unchanged, but the
watermark write and the garbage collection run unconditionally: with
lastBlock 10 and a sent entry at block 3, the call with range (5, 5)
changes the state. -/
theorem C3_counterexample :
    ((5:Int) ≤ 5) ∧
    (catchMissedEventsFromTo (demoBot ⟨10, [("h", 3)], []⟩) 5 5 []).state ≠
      (demoBot ⟨10, [("h", 3)], []⟩).state := by
  decide

/-- Claim C3, amended: when toBlock is at most fromBlock the reconcile
call performs no external query (its result does not depend on the query
response) and pushes nothing into either queue, but it still runs
setLastBlock(toBlock) followed by clearTransactionsBeforeBlock(toBlock)
on the StateStore. -/
theorem C3_amended (b : Bot) (s e : Int) (events eventsAlt : List EventLog)
    (h : e ≤ s) :
    catchMissedEventsFromTo b s e events = catchMissedEventsFromTo b s e eventsAlt ∧
    (catchMissedEventsFromTo b s e events).eventQueue = b.eventQueue ∧
    (catchMissedEventsFromTo b s e events).forceEventQueue = b.forceEventQueue ∧
    (catchMissedEventsFromTo b s e events).state =
      clearTransactionsBeforeBlock (setLastBlock b.state e) e := by
  have hng : ¬ (s < e) := not_lt.mpr h
  refine ⟨?_, ?_, ?_, ?_⟩ <;> simp [catchMissedEventsFromTo, hng]

/-- Witness for C3 at a concrete degenerate range (5, 5). -/
theorem C3_witness :
    catchMissedEventsFromTo (demoBot ⟨10, [("h", 3)], []⟩) 5 5 [⟨"x", 7⟩] =
      catchMissedEventsFromTo (demoBot ⟨10, [("h", 3)], []⟩) 5 5 [] ∧
    (catchMissedEventsFromTo (demoBot ⟨10, [("h", 3)], []⟩) 5 5
        [⟨"x", 7⟩]).eventQueue = (demoBot ⟨10, [("h", 3)], []⟩).eventQueue ∧
    (catchMissedEventsFromTo (demoBot ⟨10, [("h", 3)], []⟩) 5 5
        [⟨"x", 7⟩]).forceEventQueue = (demoBot ⟨10, [("h", 3)], []⟩).forceEventQueue ∧
    (catchMissedEventsFromTo (demoBot ⟨10, [("h", 3)], []⟩) 5 5 [⟨"x", 7⟩]).state =
      clearTransactionsBeforeBlock
        (setLastBlock (demoBot ⟨10, [("h", 3)], []⟩).state 5) 5 :=
  C3_amended (demoBot ⟨10, [("h", 3)], []⟩) 5 5 [⟨"x", 7⟩] [] (by decide)

/-- Claim C7: at construction, with durable storage absent the configured
floor is used; with storage present its lastBlock is adopted exactly when
it is at least the floor; in particular floor 100 with no storage gives
100, and persisted 150 with floor 100 gives 150. -/
theorem C7_construct (floor : Int) (data : State) :
    getLastBlock (BotStateManagerFS.construct floor none) = floor ∧
    getLastBlock (BotStateManagerFS.construct floor (some data)) =
      (if data.lastBlock ≥ floor then data.lastBlock else floor) ∧
    getLastBlock (BotStateManagerFS.construct 100 none) = 100 ∧
    getLastBlock (BotStateManagerFS.construct 100 (some ⟨150, [], []⟩)) = 150 :=
  ⟨rfl, rfl, rfl, by decide⟩

/-- Claim C9: after a reconcile call with end block b, the sent map is
exactly the previous sent map with every entry below b removed (entries
at or above b untouched), the failed map is unchanged, and consequently
no remaining sent entry has a block number below b. -/
theorem C9_gc (b : Bot) (a e : Int) (events : List EventLog) :
    (catchMissedEventsFromTo b a e events).state.sentTransactions =
      b.state.sentTransactions.filter (fun p => ! decide (p.2 < e)) ∧
    (catchMissedEventsFromTo b a e events).state.failedTransactions =
      b.state.failedTransactions ∧
    ∀ p ∈ (catchMissedEventsFromTo b a e events).state.sentTransactions, e ≤ p.2 := by
  have hs := catchMissed_state b a e events
  refine ⟨by rw [hs]; rfl, by rw [hs]; rfl, ?_⟩
  intro p hp
  rw [hs] at hp
  have h2 := List.of_mem_filter hp
  simpa using h2

/-- Witness for C9: a concrete reconcile keeps the entry at block 7 and
the theorem yields that its block is at least the end block 5. -/
theorem C9_witness :
    ("x", (7:Int)) ∈
      (catchMissedEventsFromTo (demoBot ⟨0, [("x", 7), ("y", 3)], []⟩) 0 5
        []).state.sentTransactions ∧
    (5:Int) ≤ 7 :=
  ⟨by decide,
    (C9_gc (demoBot ⟨0, [("x", 7), ("y", 3)], []⟩) 0 5 []).2.2 ("x", 7) (by decide)⟩

theorem push_of_any_true (q : Queue) (e : EventLog)
    (h : (q.queue.any fun x => x.transactionHash == e.transactionHash) = true) :
    q.push e = q := by
  simp [Queue.push, h]

theorem push_of_any_false (q : Queue) (e : EventLog)
    (h : (q.queue.any fun x => x.transactionHash == e.transactionHash) = false) :
    (q.push e).queue = q.queue ++ [e] := by
  simp [Queue.push, h]

theorem push_queueName (q : Queue) (e : EventLog) :
    (q.push e).queueName = q.queueName := by
  unfold Queue.push
  split <;> rfl

theorem push_lock (q : Queue) (e : EventLog) :
    (q.push e).lock = q.lock := by
  unfold Queue.push
  split <;> rfl

theorem any_push_self (q : Queue) (e : EventLog) :
    ((q.push e).queue.any fun x => x.transactionHash == e.transactionHash) = true := by
  by_cases h : (q.queue.any fun x => x.transactionHash == e.transactionHash) = true
  · rw [push_of_any_true q e h]
    exact h
  · rw [Bool.not_eq_true] at h
    rw [push_of_any_false q e h]
    simp [List.any_append]

/-- Claim C5: pushing two events with the same id into a queue leaves
exactly one item with that id (when none was present before), the second
push changes nothing, and pushes preserve the no-duplicate-id invariant,
so no queue ever holds two items with the same id. -/
theorem C5_dedup (q : Queue) (e1 e2 : EventLog)
    (h : e1.transactionHash = e2.transactionHash) :
    ((q.push e1).push e2).queue = (q.push e1).queue ∧
    ((q.queue.any fun x => x.transactionHash == e1.transactionHash) = false →
      (((q.push e1).push e2).queue.countP
        fun x => x.transactionHash == e1.transactionHash) = 1) ∧
    ((q.queue.map EventLog.transactionHash).Nodup →
      (((q.push e1).push e2).queue.map EventLog.transactionHash).Nodup) := by
  have hany2 :
      ((q.push e1).queue.any fun x => x.transactionHash == e2.transactionHash) = true := by
    have hp : (fun x : EventLog => x.transactionHash == e2.transactionHash) =
        fun x : EventLog => x.transactionHash == e1.transactionHash := by
      funext x
      rw [h]
    rw [hp]
    exact any_push_self q e1
  have heq : (q.push e1).push e2 = q.push e1 := push_of_any_true _ e2 hany2
  refine ⟨by rw [heq], ?_, ?_⟩
  · intro hnone
    have h0 : (q.queue.countP fun x => x.transactionHash == e1.transactionHash) = 0 := by
      rw [List.countP_eq_zero]
      intro a ha
      have := List.any_eq_false.mp hnone a ha
      simpa using this
    rw [heq, push_of_any_false q e1 hnone, List.countP_append, h0]
    simp
  · intro hnd
    rw [heq]
    by_cases hc : (q.queue.any fun x => x.transactionHash == e1.transactionHash) = true
    · rw [push_of_any_true q e1 hc]
      exact hnd
    · rw [Bool.not_eq_true] at hc
      rw [push_of_any_false q e1 hc, List.map_append]
      have hmem : e1.transactionHash ∉ q.queue.map EventLog.transactionHash := by
        intro hm
        obtain ⟨x, hx, hxh⟩ := List.mem_map.mp hm
        have hfx := List.any_eq_false.mp hc x hx
        exact hfx (by simpa using hxh)
      simp [List.nodup_append, hnd, hmem]

/-- Witness for C5 on an initially empty queue and two copies of the
same event. -/
theorem C5_witness :
    (((mkQueue COMMON_PING_EVENT_QUEUE 1).push ⟨"0xa", 1⟩).push ⟨"0xa", 1⟩).queue =
      ((mkQueue COMMON_PING_EVENT_QUEUE 1).push ⟨"0xa", 1⟩).queue ∧
    ((((mkQueue COMMON_PING_EVENT_QUEUE 1).push ⟨"0xa", 1⟩).push ⟨"0xa", 1⟩).queue.countP
      fun x => x.transactionHash == EventLog.transactionHash ⟨"0xa", 1⟩) = 1 ∧
    ((((mkQueue COMMON_PING_EVENT_QUEUE 1).push ⟨"0xa", 1⟩).push
        ⟨"0xa", 1⟩).queue.map EventLog.transactionHash).Nodup :=
  ⟨(C5_dedup (mkQueue COMMON_PING_EVENT_QUEUE 1) ⟨"0xa", 1⟩ ⟨"0xa", 1⟩ rfl).1,
    (C5_dedup (mkQueue COMMON_PING_EVENT_QUEUE 1) ⟨"0xa", 1⟩ ⟨"0xa", 1⟩ rfl).2.1
      (by decide),
    (C5_dedup (mkQueue COMMON_PING_EVENT_QUEUE 1) ⟨"0xa", 1⟩ ⟨"0xa", 1⟩ rfl).2.2
      (by decide)⟩

theorem force_ne_common :
    (FORCE_PING_EVENT_QUEUE == COMMON_PING_EVENT_QUEUE) = false := by
  decide

theorem queueHandle_common_fail (b : Bot) (e : EventLog) (rest : List EventLog)
    (o : PongOutcome)
    (hname : b.eventQueue.queueName = COMMON_PING_EVENT_QUEUE)
    (hq : b.eventQueue.queue = e :: rest)
    (hl : b.eventQueue.lock = false)
    (hfail : sendPongFails o = true) :
    queueHandle b QueueId.common o =
      { b with
          eventQueue := { b.eventQueue with queue := rest, lock := false }
          forceEventQueue := b.forceEventQueue.push e } := by
  cases o with
  | callError =>
    simp [queueHandle, Bot.getQueue, Bot.setQueue, hq, hl, sendPong,
      handleErrorPong, hname]
  | receipt status =>
    have hst : (status == 1) = false := by
      simpa [sendPongFails] using hfail
    simp [queueHandle, Bot.getQueue, Bot.setQueue, hq, hl, sendPong,
      handleErrorPong, hname, hst]

theorem queueHandle_force_fail (b : Bot) (e : EventLog) (rest : List EventLog)
    (o : PongOutcome)
    (hname : b.forceEventQueue.queueName = FORCE_PING_EVENT_QUEUE)
    (hq : b.forceEventQueue.queue = e :: rest)
    (hl : b.forceEventQueue.lock = false)
    (hfail : sendPongFails o = true) :
    queueHandle b QueueId.force o =
      { b with
          forceEventQueue := { b.forceEventQueue with queue := rest, lock := false }
          state := addFailedTransaction b.state e.transactionHash e.blockNumber } := by
  cases o with
  | callError =>
    simp [queueHandle, Bot.getQueue, Bot.setQueue, hq, hl, sendPong,
      handleErrorPong, hname, force_ne_common]
  | receipt status =>
    have hst : (status == 1) = false := by
      simpa [sendPongFails] using hfail
    simp [queueHandle, Bot.getQueue, Bot.setQueue, hq, hl, sendPong,
      handleErrorPong, hname, hst, force_ne_common]

/-- Claim C6: under the program's queue wiring, a failed attempt on an
item drained from the primary queue pushes that exact item into the
escalated queue (state untouched), while a failed attempt on an item
drained from the escalated queue records it via addFailedTransaction and
pushes it to no queue. -/
theorem C6_escalation (b : Bot) (outcome : PongOutcome) (e : EventLog)
    (rest : List EventLog) (hfail : sendPongFails outcome = true)
    (hw : wiredNames b) :
    (b.eventQueue.queue = e :: rest → b.eventQueue.lock = false →
      queueHandle b QueueId.common outcome =
        { b with
            eventQueue := { b.eventQueue with queue := rest, lock := false }
            forceEventQueue := b.forceEventQueue.push e }) ∧
    (b.forceEventQueue.queue = e :: rest → b.forceEventQueue.lock = false →
      queueHandle b QueueId.force outcome =
        { b with
            forceEventQueue := { b.forceEventQueue with queue := rest, lock := false }
            state := addFailedTransaction b.state e.transactionHash e.blockNumber }) := by
  obtain ⟨hwc, hwf⟩ := hw
  exact ⟨fun hq hl => queueHandle_common_fail b e rest outcome hwc hq hl hfail,
    fun hq hl => queueHandle_force_fail b e rest outcome hwf hq hl hfail⟩

/-- Witness for C6 on a concrete bot whose primary queue holds one
event and whose pong attempt throws. -/
theorem C6_witness :
    queueHandle busyBot QueueId.common PongOutcome.callError =
      { busyBot with
          eventQueue := { busyBot.eventQueue with queue := [], lock := false }
          forceEventQueue := busyBot.forceEventQueue.push ⟨"0xa", 1⟩ } :=
  (C6_escalation busyBot PongOutcome.callError ⟨"0xa", 1⟩ [] rfl (by decide)).1 rfl rfl

/-- Claim C8: a drain tick on a locked queue does nothing at all (the
whole bot is unchanged and no pong attempt is consumed), and on an
unlocked queue, under the program's wiring, it pops at most one item
(the queue becomes the tail of its previous contents) and the lock is
clear again once the tick completes, whatever the pong outcome. -/
theorem C8_lock (b : Bot) (qid : QueueId) (outcome : PongOutcome) :
    ((b.getQueue qid).lock = true → queueHandle b qid outcome = b) ∧
    (wiredNames b → (b.getQueue qid).lock = false →
      ((queueHandle b qid outcome).getQueue qid).lock = false ∧
      ((queueHandle b qid outcome).getQueue qid).queue =
        (b.getQueue qid).queue.tail) := by
  constructor
  · intro hl
    simp [queueHandle, hl]
  · rintro ⟨hwc, hwf⟩ hl
    cases qid with
    | common =>
      simp only [Bot.getQueue] at hl
      cases hq : b.eventQueue.queue with
      | nil =>
        constructor <;>
          simp [queueHandle, Bot.getQueue, Bot.setQueue, hl, hq]
      | cons e rest =>
        cases outcome with
        | callError =>
          constructor <;>
            simp [queueHandle, Bot.getQueue, Bot.setQueue, hl, hq, sendPong,
              handleErrorPong, hwc]
        | receipt status =>
          by_cases hst : (status == 1) = true <;> constructor <;>
            simp [queueHandle, Bot.getQueue, Bot.setQueue, hl, hq, sendPong,
              handleErrorPong, hwc, hst]
    | force =>
      simp only [Bot.getQueue] at hl
      cases hq : b.forceEventQueue.queue with
      | nil =>
        constructor <;>
          simp [queueHandle, Bot.getQueue, Bot.setQueue, hl, hq]
      | cons e rest =>
        cases outcome with
        | callError =>
          constructor <;>
            simp [queueHandle, Bot.getQueue, Bot.setQueue, hl, hq, sendPong,
              handleErrorPong, hwf, force_ne_common]
        | receipt status =>
          by_cases hst : (status == 1) = true <;> constructor <;>
            simp [queueHandle, Bot.getQueue, Bot.setQueue, hl, hq, sendPong,
              handleErrorPong, hwf, force_ne_common, hst]

/-- Witness for C8: the locked bot is untouched by a tick, and an
unlocked tick on a one-element queue leaves it empty and unlocked. -/
theorem C8_witness :
    queueHandle lockedBot QueueId.common PongOutcome.callError = lockedBot ∧
    (((queueHandle busyBot QueueId.common PongOutcome.callError).getQueue
        QueueId.common).lock = false ∧
      ((queueHandle busyBot QueueId.common PongOutcome.callError).getQueue
        QueueId.common).queue = (busyBot.getQueue QueueId.common).queue.tail) :=
  ⟨(C8_lock lockedBot QueueId.common PongOutcome.callError).1 rfl,
    (C8_lock busyBot QueueId.common PongOutcome.callError).2 (by decide) rfl⟩

/-- Claim C4, counterexample: an event that fails the primary attempt
and then the escalated attempt lands in the failed map and is in neither
queue, yet a later reconcile whose range query returns that event pushes
it into the primary queue again, because the reconcile filter consults
only the sent map and never the failed map. -/
theorem C4_counterexample :
    ((queueHandle (queueHandle C4bot0 QueueId.common PongOutcome.callError)
        QueueId.force PongOutcome.callError).state.failedTransactions.lookup
      "0xping") = some 5 ∧
    (queueHandle (queueHandle C4bot0 QueueId.common PongOutcome.callError)
        QueueId.force PongOutcome.callError).eventQueue.queue = [] ∧
    (queueHandle (queueHandle C4bot0 QueueId.common PongOutcome.callError)
        QueueId.force PongOutcome.callError).forceEventQueue.queue = [] ∧
    (catchMissedEventsFromTo
        (queueHandle (queueHandle C4bot0 QueueId.common PongOutcome.callError)
          QueueId.force PongOutcome.callError) 0 10
        [pingEvent]).eventQueue.queue = [pingEvent] := by
  decide

/-- Claim C4, amended: an event that fails the primary-tier attempt and
then the escalated-tier attempt appears in the failed map and is at that
point in neither queue; it stays away only as long as no later reconcile
query returns it and no live push re-delivers it, since neither path
consults the failed map. -/
theorem C4_amended (b : Bot) (e : EventLog) (rest : List EventLog)
    (o1 o2 : PongOutcome)
    (hw : wiredNames b)
    (hcq : b.eventQueue.queue = e :: rest)
    (hcl : b.eventQueue.lock = false)
    (hfq : b.forceEventQueue.queue = [])
    (hfl : b.forceEventQueue.lock = false)
    (h1 : sendPongFails o1 = true) (h2 : sendPongFails o2 = true)
    (hrest : ∀ x ∈ rest, x.transactionHash ≠ e.transactionHash) :
    ((queueHandle (queueHandle b QueueId.common o1) QueueId.force
        o2).state.failedTransactions.lookup e.transactionHash) =
      some e.blockNumber ∧
    (∀ x ∈ (queueHandle (queueHandle b QueueId.common o1) QueueId.force
        o2).eventQueue.queue, x.transactionHash ≠ e.transactionHash) ∧
    (queueHandle (queueHandle b QueueId.common o1) QueueId.force
        o2).forceEventQueue.queue = [] := by
  obtain ⟨hwc, hwf⟩ := hw
  have hstep1 := queueHandle_common_fail b e rest o1 hwc hcq hcl h1
  have hany : (b.forceEventQueue.queue.any
      fun x => x.transactionHash == e.transactionHash) = false := by
    rw [hfq]
    rfl
  have hpush : (b.forceEventQueue.push e).queue = e :: [] := by
    rw [push_of_any_false _ _ hany, hfq]
    rfl
  have hname1 : (b.forceEventQueue.push e).queueName = FORCE_PING_EVENT_QUEUE := by
    rw [push_queueName]
    exact hwf
  have hl1 : (b.forceEventQueue.push e).lock = false := by
    rw [push_lock]
    exact hfl
  rw [hstep1]
  rw [queueHandle_force_fail
    { b with
        eventQueue := { b.eventQueue with queue := rest, lock := false }
        forceEventQueue := b.forceEventQueue.push e }
    e [] o2 hname1 hpush hl1 h2]
  refine ⟨lookup_upsert_self _ _ _, ?_, rfl⟩
  intro x hx
  exact hrest x hx

/-- Witness for C4 on a concrete bot where pingEvent fails both tiers. -/
theorem C4_witness :
    ((queueHandle (queueHandle C4bot0 QueueId.common PongOutcome.callError)
        QueueId.force PongOutcome.callError).state.failedTransactions.lookup
      pingEvent.transactionHash) = some pingEvent.blockNumber ∧
    (∀ x ∈ (queueHandle (queueHandle C4bot0 QueueId.common PongOutcome.callError)
        QueueId.force PongOutcome.callError).eventQueue.queue,
      x.transactionHash ≠ pingEvent.transactionHash) ∧
    (queueHandle (queueHandle C4bot0 QueueId.common PongOutcome.callError)
        QueueId.force PongOutcome.callError).forceEventQueue.queue = [] :=
  C4_amended C4bot0 pingEvent [] PongOutcome.callError PongOutcome.callError
    (by decide) rfl rfl rfl rfl rfl rfl (by decide)

/-- Claim C10: sendPong returns successfully exactly when a receipt with
status 1 is obtained, and then the resulting state is the old one with
the event recorded in the sent map under its transactionHash, mapped to
its blockNumber; on a thrown call or any other receipt status it throws,
and since the error carries no state mutation the sent map is exactly
as before. -/
theorem C10_sendPong (e : EventLog) (g : Int) (o : PongOutcome) (s : State) :
    (∀ s1, sendPong e g o s = Except.ok s1 ↔
      (o = PongOutcome.receipt 1 ∧
        s1 = addSentTransaction s e.transactionHash e.blockNumber)) ∧
    (sendPongFails o = true → ∃ msg, sendPong e g o s = Except.error msg) ∧
    ((addSentTransaction s e.transactionHash e.blockNumber).sentTransactions.lookup
        e.transactionHash = some e.blockNumber) := by
  refine ⟨?_, ?_, lookup_upsert_self _ _ _⟩
  · intro s1
    cases o with
    | callError => simp [sendPong]
    | receipt status =>
      by_cases hst : status = 1
      · subst hst
        simp [sendPong, eq_comm]
      · have hb : (status == 1) = false := by
          simpa using hst
        simp [sendPong, hb, hst]
  · intro hf
    cases o with
    | callError => exact ⟨"call failed", rfl⟩
    | receipt status =>
      have hb : (status == 1) = false := by
        simpa [sendPongFails] using hf
      exact ⟨"Transaction failed", by simp [sendPong, hb]⟩

/-- Witness for C10 on a thrown pong call. -/
theorem C10_witness :
    ∃ msg, sendPong pingEvent 50000 PongOutcome.callError ⟨0, [], []⟩ =
      Except.error msg :=
  (C10_sendPong pingEvent 50000 PongOutcome.callError ⟨0, [], []⟩).2.1 rfl

end PingPongBot
